import Mathlib

/-!
Shallow embedding of the QNAP QM2 fan-control core (`src/ssh_manager.py`,
`src/models.py`) and verification of its specification claims.

The remote side (the paramiko transport) is modelled by an explicit
environment `Env`: an oracle mapping each command string to its execution
outcome (either a normal result with exit status / stdout / stderr, or a
transport-level exception carrying a message), the outcome of the
transport-level `client.connect` call, and the current time (datetimes are
modelled as natural numbers).  All manager operations are then deterministic
functions of the manager state and the environment.
-/

namespace QNAP

/-- Data class for SSH connection information (`models.SSHConnection`). -/
structure SSHConnection where
  host : String
  username : String
  port : Nat
  is_connected : Bool
  connected_at : Option Nat
  qm2_enc_sys_id : Option String
deriving Repr, DecidableEq

/-- Data class for command log entries (`models.LogEntry`). -/
structure LogEntry where
  timestamp : Nat
  command : String
  response : String
  success : Bool
  error_message : Option String
deriving Repr, DecidableEq

/-- Data class for fan speed options (`models.FanSpeedOption`). -/
structure FanSpeedOption where
  label : String
  value : String
  command : String
deriving Repr, DecidableEq

/-- The static fan-speed catalog `models.QNAPCommands.FAN_SPEED_OPTIONS`. -/
def FAN_SPEED_OPTIONS : List FanSpeedOption :=
  [ ⟨"Auto/Default", "auto", "restore_default"⟩,
    ⟨"Silent (PWM 50)", "silent", "50"⟩,
    ⟨"Low (PWM 75)", "low", "75"⟩,
    ⟨"Medium (PWM 100)", "medium", "100"⟩,
    ⟨"High (PWM 150)", "high", "150"⟩,
    ⟨"Maximum (PWM 200)", "max", "200"⟩ ]

/-- Command string built by `models.QNAPCommands.get_enum_command`. -/
def get_enum_command : String := "hal_app --se_enum"

/-- Command string built by `models.QNAPCommands.get_fan_status_command`. -/
def get_fan_status_command (enc_sys_id : String) : String :=
  "hal_app --se_sys_get_fan enc_sys_id=" ++ enc_sys_id ++ ",obj_index=0"

/-- Command string built by `models.QNAPCommands.get_fan_pwm_command`. -/
def get_fan_pwm_command (enc_sys_id : String) : String :=
  "hal_app --se_sys_get_fan_pwm enc_sys_id=" ++ enc_sys_id ++ ",obj_index=0"

/-- Command string built by `models.QNAPCommands.set_fan_mode_command`. -/
def set_fan_mode_command (enc_sys_id : String) (mode : Nat) : String :=
  "hal_app --se_sys_set_fan_mode enc_sys_id=" ++ enc_sys_id ++
    ",obj_index=0,mode=" ++ toString mode

/-- Command string built by `models.QNAPCommands.set_fan_pwm_command`. -/
def set_fan_pwm_command (enc_sys_id : String) (pwm : Nat) : String :=
  "hal_app --se_sys_set_fan_pwm enc_sys_id=" ++ enc_sys_id ++ ",pwm=" ++ toString pwm

/-- Command string built by `models.QNAPCommands.restore_default_fan_command`. -/
def restore_default_fan_command (enc_sys_id : String) : String :=
  "hal_app --se_sys_sys_restore_default_fan enc_sys_id=" ++ enc_sys_id

/-- A paramiko `SSHClient`: `transport = none` models `get_transport()`
returning `None`; `transport = some b` models a transport whose
`is_active()` returns `b`. -/
structure SSHClient where
  transport : Option Bool
deriving Repr, DecidableEq

/-- The state of `ssh_manager.SSHManager`. -/
structure SSHManager where
  client : Option SSHClient
  connection_info : Option SSHConnection
  command_log : List LogEntry
deriving Repr, DecidableEq

/-- The manager produced by `SSHManager.__init__`. -/
def SSHManager.init : SSHManager := ⟨none, none, []⟩

/-- Result of a remote `exec_command` that did not raise: exit status,
raw stdout and raw stderr (before `.strip()`). -/
structure ExecResult where
  exit_status : Int
  stdout : String
  stderr : String
deriving Repr, DecidableEq

/-- Outcome of `client.exec_command`: a normal result, or a
transport-level exception with message text `str(e)`. -/
inductive ExecOutcome where
  | ok : ExecResult → ExecOutcome
  | exn : String → ExecOutcome
deriving Repr, DecidableEq

/-- Outcome of the transport-level `paramiko.SSHClient.connect` call:
success, or one of the exception classes caught in `SSHManager.connect`. -/
inductive ConnectOutcome where
  | ok : ConnectOutcome
  | authFail : ConnectOutcome
  | sshErr : String → ConnectOutcome
  | timeout : ConnectOutcome
  | gaierror : ConnectOutcome
  | other : String → ConnectOutcome
deriving Repr, DecidableEq

/-- The remote world as seen by one manager operation. -/
structure Env where
  exec : String → ExecOutcome
  connect_result : ConnectOutcome
  now : Nat

/-- Python's whitespace test for `str.strip()` / `str.split()` (ASCII range):
space, tab, newline, carriage return, vertical tab, form feed. -/
def isPyWs (c : Char) : Bool :=
  c.toNat == 32 || (9 ≤ c.toNat && c.toNat ≤ 13)

/-- Drop leading characters satisfying `p`. -/
def dropLeading (p : Char → Bool) : List Char → List Char
  | [] => []
  | c :: rest => if p c then dropLeading p rest else c :: rest

/-- Python's `str.strip()`: remove leading and trailing whitespace. -/
def pyStrip (s : String) : String :=
  ⟨(dropLeading isPyWs (dropLeading isPyWs s.data.reverse).reverse)⟩

/-- ASCII lower-casing of one character (Python's `str.lower()` restricted
to the ASCII range, which is all the matching rule inspects). -/
def asciiLower (c : Char) : Char :=
  if 65 ≤ c.toNat && c.toNat ≤ 90 then Char.ofNat (c.toNat + 32) else c

/-- Python's `str.lower()` (ASCII range). -/
def pyLower (s : String) : String := ⟨s.data.map asciiLower⟩

/-- Split a character list at every character satisfying `p`, keeping empty
fields (the behavior of Python's `str.split(sep)` for a one-character
separator when `p` tests for that separator). -/
def splitCharsAt (p : Char → Bool) : List Char → List (List Char)
  | [] => [[]]
  | c :: rest =>
    let r := splitCharsAt p rest
    if p c then [] :: r
    else
      match r with
      | h :: t => (c :: h) :: t
      | [] => [[c]]

/-- Python's `stdout.split('\n')`. -/
def pyLines (s : String) : List String :=
  (splitCharsAt (fun c => c == Char.ofNat 10) s.data).map String.mk

/-- Python's `line.split()` (no separator): whitespace-separated fields,
empty fields dropped. -/
def splitWs (line : String) : List String :=
  ((splitCharsAt isPyWs line.data).map String.mk).filter fun s => !(s == "")

/-- Value of one decimal digit, if the character is one. -/
def digitVal (c : Char) : Option Nat :=
  if 48 ≤ c.toNat && c.toNat ≤ 57 then some (c.toNat - 48) else none

/-- Accumulating decimal parse of a digit list. -/
def digitsToNat (acc : Nat) : List Char → Option Nat
  | [] => some acc
  | c :: rest =>
    match digitVal c with
    | some d => digitsToNat (acc * 10 + d) rest
    | none => none

/-- Python's `int(s)` for the plain nonnegative decimal strings appearing in
the catalog (`"50"` … `"200"`); other strings yield `none`. -/
def pyInt (s : String) : Option Nat :=
  match s.data with
  | [] => none
  | l => digitsToNat 0 l

/-- Python's `sep.join(parts)`. -/
def pyJoin (sep : String) : List String → String
  | [] => ""
  | [x] => x
  | x :: y :: rest => x ++ sep ++ pyJoin sep (y :: rest)

/-- Python truthiness of an `Optional[str]`: true iff present and non-empty. -/
def strOptTruthy : Option String → Bool
  | none => false
  | some s => !(s == "")

/-- Liveness check `SSHManager.is_connected`: false when client or connection info is
missing; otherwise the transport must exist and report itself active. -/
def is_connected (m : SSHManager) : Bool :=
  match m.client, m.connection_info with
  | some c, some _ =>
    match c.transport with
    | some active => active
    | none => false
  | _, _ => false

/-- Teardown `SSHManager.disconnect`: closes the client if present (close errors are
swallowed: `closeErr` has no effect on the resulting state), sets
`client = None`, and clears `connection_info`. -/
def disconnect (m : SSHManager) (closeErr : Option String) : SSHManager :=
  let _ := closeErr
  { m with client := none, connection_info := none }

/-- The trimming step `self.command_log = self.command_log[-100:]`, applied
by `execute_command` (on its normal path only) when the log exceeds 100
entries: keep the last 100, evicting the oldest. -/
def trim100 (l : List LogEntry) : List LogEntry :=
  if l.length > 100 then l.drop (l.length - 100) else l

/-- The `LogEntry` built by `execute_command` when the remote execution
completed with exit status `r.exit_status`: response holds stripped stdout
on success and stripped stderr on failure; `error_message` is set only on
failure. -/
def ok_log_entry (now : Nat) (command : String) (r : ExecResult) : LogEntry :=
  let stdout_data := pyStrip r.stdout
  let stderr_data := pyStrip r.stderr
  let success := r.exit_status == 0
  { timestamp := now
    command := command
    response := if success then stdout_data else stderr_data
    success := success
    error_message := if success then none else some stderr_data }

/-- The `LogEntry` built by `execute_command` when the remote execution
raised a transport-level exception with text `e`. -/
def exn_log_entry (now : Nat) (command : String) (e : String) : LogEntry :=
  { timestamp := now
    command := command
    response := ""
    success := false
    error_message := some ("Command execution failed: " ++ e) }

/-- The single `LogEntry` recorded for one invocation of `execute_command`
on a connected session, under environment `env`. -/
def logged_entry (env : Env) (command : String) : LogEntry :=
  match env.exec command with
  | .ok r => ok_log_entry env.now command r
  | .exn e => exn_log_entry env.now command e

/-- Remote execution `SSHManager.execute_command`: fails fast when not connected; otherwise
consults the environment's exec oracle, strips stdout/stderr, defines
success as exit status 0, appends exactly one `LogEntry`, and (on the
normal path only) trims the log to its last 100 entries.  A transport
exception is caught, logged, and returned as a failure. -/
def execute_command (m : SSHManager) (env : Env) (command : String) :
    SSHManager × Bool × String × String :=
  if is_connected m = false then (m, false, "", "Not connected to NAS")
  else
    match m.client with
    | none => (m, false, "", "SSH client not initialized")
    | some _ =>
      match env.exec command with
      | .ok r =>
        let stdout_data := pyStrip r.stdout
        let stderr_data := pyStrip r.stderr
        let success := r.exit_status == 0
        ({ m with command_log := trim100 (m.command_log ++ [ok_log_entry env.now command r]) },
         success, stdout_data, stderr_data)
      | .exn e =>
        ({ m with command_log := m.command_log ++ [exn_log_entry env.now command e] },
         false, "", "Command execution failed: " ++ e)

/-- The single-quote character, used in the connection-test command string. -/
def sq : String := String.mk [Char.ofNat 39]

/-- The no-op verification command run by `SSHManager.connect`:
`echo 'Connection test'`. -/
def connection_test_command : String := "echo " ++ sq ++ "Connection test" ++ sq

/-- Connection setup `SSHManager.connect`: tears down any existing connection, creates a new
client, attempts the transport-level connect (with mapped error messages for
each caught exception class), runs the verification command, tears down on
verification failure, and on success records a fresh `SSHConnection`. -/
def connect (m : SSHManager) (env : Env) (host username : String) (port : Nat) :
    SSHManager × Bool × String :=
  let m0 := disconnect m none
  let m1 : SSHManager := { m0 with client := some { transport := none } }
  match env.connect_result with
  | .authFail =>
    (m1, false, "Authentication failed. Please check username and password.")
  | .sshErr e => (m1, false, "SSH connection error: " ++ e)
  | .timeout =>
    (m1, false, "Connection timeout. Please check the IP address and network connectivity.")
  | .gaierror => (m1, false, "Could not resolve hostname. Please check the IP address.")
  | .other e => (m1, false, "Unexpected error: " ++ e)
  | .ok =>
    let m2 : SSHManager := { m1 with client := some { transport := some true } }
    let (m3, success, _stdout, error) := execute_command m2 env connection_test_command
    if success = false then
      (disconnect m3 none, false, "Connection test failed: " ++ error)
    else
      let info : SSHConnection :=
        { host := host, username := username, port := port,
          is_connected := true, connected_at := some env.now,
          qm2_enc_sys_id := none }
      let m4 : SSHManager := { m3 with connection_info := some info }
      (m4, true, "Successfully connected to " ++ host)

/-- Does the character list `s` start with the pattern `p`? -/
def listStartsWith : List Char → List Char → Bool
  | _, [] => true
  | [], _ :: _ => false
  | a :: s, b :: p => a == b && listStartsWith s p

/-- Does the character list `s` contain `p` as a contiguous sublist?
Models Python's `p in s` substring test. -/
def listContainsSub : List Char → List Char → Bool
  | [], p => p.isEmpty
  | a :: s, p => listStartsWith (a :: s) p || listContainsSub s p

/-- Python's `p in s` on strings. -/
def strContains (s p : String) : Bool := listContainsSub s.toList p.toList

/-- The line-matching test of `SSHManager.detect_qm2_card`:
`'qm2' in line.lower() and 'QM2' in line`. -/
def qm2LineMatch (line : String) : Bool :=
  strContains (pyLower line) "qm2" && strContains line "QM2"

/-- The scanning loop of `SSHManager.detect_qm2_card`: first line that
matches `qm2LineMatch` AND has at least 3 whitespace-separated fields
yields its 3rd field; a matching line with fewer fields is skipped. -/
def findQM2 : List String → Option String
  | [] => none
  | line :: rest =>
    if qm2LineMatch line then
      match (splitWs line)[2]? with
      | some enc_sys_id => some enc_sys_id
      | none => findQM2 rest
    else findQM2 rest

/-- Failure message of `detect_qm2_card` when no line yields an id. -/
def no_qm2_message : String :=
  "No QM2 card found. Make sure you have a QM2 expansion card installed."

/-- Auto-detection `SSHManager.detect_qm2_card`: runs the enumeration command, scans its
stdout line by line, caches a found id on the connection info (when one
exists) and returns it; otherwise reports the no-card failure. -/
def detect_qm2_card (m : SSHManager) (env : Env) : SSHManager × Bool × String :=
  if is_connected m = false then (m, false, "Not connected to NAS")
  else
    let (m1, success, stdout, stderr) := execute_command m env get_enum_command
    if success = false then (m1, false, "Failed to enumerate devices: " ++ stderr)
    else
      let lines := pyLines stdout
      match findQM2 lines with
      | some enc_sys_id =>
        let m2 : SSHManager :=
          match m1.connection_info with
          | some ci =>
            { m1 with connection_info := some { ci with qm2_enc_sys_id := some enc_sys_id } }
          | none => m1
        (m2, true, enc_sys_id)
      | none => (m1, false, no_qm2_message)

/-- The device-identifier resolution shared verbatim by `set_fan_speed` and
`get_fan_status`: use the argument if truthy, else the cached id if truthy,
else auto-detect (propagating its failure); finally reject a falsy id. -/
def resolve_enc (m : SSHManager) (env : Env) (enc_sys_id0 : Option String) :
    Except (SSHManager × String) (SSHManager × String) :=
  let step : Except (SSHManager × String) (SSHManager × Option String) :=
    if strOptTruthy enc_sys_id0 = false then
      if (match m.connection_info with
          | some ci => strOptTruthy ci.qm2_enc_sys_id
          | none => false) = true then
        .ok (m, m.connection_info.bind SSHConnection.qm2_enc_sys_id)
      else
        let (m1, success, detected_id) := detect_qm2_card m env
        if success = false then .error (m1, detected_id)
        else .ok (m1, some detected_id)
    else .ok (m, enc_sys_id0)
  match step with
  | .error e => .error e
  | .ok (m1, enc) =>
    if strOptTruthy enc = false then
      .error (m1, "Could not determine QM2 card identifier")
    else .ok (m1, enc.getD "")

/-- The option-lookup loop of `set_fan_speed`: first catalog option whose
`value` equals the requested key. -/
def findOption (speed_value : String) : Option FanSpeedOption :=
  FAN_SPEED_OPTIONS.find? fun o => o.value == speed_value

/-- Fan control `SSHManager.set_fan_speed`: requires a connection, resolves the device
id (possibly auto-detecting), resolves the speed key against the catalog,
then either issues the restore-default command, or the set-mode command
followed (on mode success) by the set-PWM command.  `int(speed_option.command)`
is modelled by `toNat?.getD 0`; it is only reached for the numeric catalog
entries. -/
def set_fan_speed (m : SSHManager) (env : Env) (speed_value : String)
    (enc_sys_id0 : Option String) : SSHManager × Bool × String :=
  if is_connected m = false then (m, false, "Not connected to NAS")
  else
    match resolve_enc m env enc_sys_id0 with
    | .error (m1, msg) => (m1, false, msg)
    | .ok (m1, enc_sys_id) =>
      match findOption speed_value with
      | none => (m1, false, "Invalid fan speed value: " ++ speed_value)
      | some speed_option =>
        let afterMode : Except (SSHManager × String) (SSHManager × String) :=
          if speed_option.command == "restore_default" then
            .ok (m1, restore_default_fan_command enc_sys_id)
          else
            let (m2, success, _stdout, stderr) :=
              execute_command m1 env (set_fan_mode_command enc_sys_id 1)
            if success = false then .error (m2, "Failed to set fan mode: " ++ stderr)
            else
              let pwm_value := (pyInt speed_option.command).getD 0
              .ok (m2, set_fan_pwm_command enc_sys_id pwm_value)
        match afterMode with
        | .error (m2, msg) => (m2, false, msg)
        | .ok (m2, command) =>
          let (m3, success, _stdout, stderr) := execute_command m2 env command
          if success then
            (m3, true, "Fan speed set to " ++ speed_option.label ++ " (QM2: " ++
              (if enc_sys_id == "" then "Unknown" else enc_sys_id) ++ ")")
          else
            (m3, false, "Failed to set fan speed: " ++
              (if stderr == "" then "Unknown error" else stderr))

/-- Status query `SSHManager.get_fan_status`: requires a connection, resolves the device
id exactly as `set_fan_speed` does, issues the get-fan-status command and
then the get-fan-pwm command, collects the labelled outputs of those that
succeeded with non-empty stdout, and pipe-joins them; fails when neither
produced usable output. -/
def get_fan_status (m : SSHManager) (env : Env) (enc_sys_id0 : Option String) :
    SSHManager × Bool × String :=
  if is_connected m = false then (m, false, "Not connected to NAS")
  else
    match resolve_enc m env enc_sys_id0 with
    | .error (m1, msg) => (m1, false, msg)
    | .ok (m1, enc_sys_id) =>
      let status_info : List String := []
      let (m2, s1, out1, _e1) := execute_command m1 env (get_fan_status_command enc_sys_id)
      let status_info :=
        if s1 && !(out1 == "") then status_info ++ ["Fan Status: " ++ pyStrip out1]
        else status_info
      let (m3, s2, out2, _e2) := execute_command m2 env (get_fan_pwm_command enc_sys_id)
      let status_info :=
        if s2 && !(out2 == "") then status_info ++ ["PWM: " ++ pyStrip out2]
        else status_info
      if status_info.isEmpty = false then (m3, true, pyJoin " | " status_info)
      else (m3, false, "Could not retrieve fan status")

/-- Log snapshot `SSHManager.get_command_log` (returns a copy, modelled as the list). -/
def get_command_log (m : SSHManager) : List LogEntry := m.command_log

/-- Log reset `SSHManager.clear_log`. -/
def clear_log (m : SSHManager) : SSHManager := { m with command_log := [] }

/-- Spec-side predicate: the device identifier is already resolved before
the call — either passed as a truthy argument, or cached (truthy) on the
current connection info.  When it holds, `resolve_enc` issues no remote
command. -/
def encResolved (m : SSHManager) (enc_sys_id0 : Option String) : Bool :=
  strOptTruthy enc_sys_id0 ||
    (match m.connection_info with
     | some ci => strOptTruthy ci.qm2_enc_sys_id
     | none => false)

/-- Spec-side reading of the detector's scanning rule: the 3rd
whitespace-separated field of the first line that matches the marker test
and has at least 3 fields. -/
def firstQM2Field (lines : List String) : Option String :=
  match lines.find? (fun l => qm2LineMatch l && decide (3 ≤ (splitWs l).length)) with
  | some l => (splitWs l)[2]?
  | none => none

/-- Spec-side decomposition of `get_fan_status` with a provided id: the
labelled fragments collected from the status command and then the PWM
command, each kept only when it succeeded with non-empty stdout. -/
def status_pieces (m : SSHManager) (env : Env) (enc_sys_id : String) : List String :=
  let r1 := execute_command m env (get_fan_status_command enc_sys_id)
  let r2 := execute_command r1.1 env (get_fan_pwm_command enc_sys_id)
  (if r1.2.1 && !(r1.2.2.1 == "") then ["Fan Status: " ++ pyStrip r1.2.2.1] else []) ++
    (if r2.2.1 && !(r2.2.2.1 == "") then ["PWM: " ++ pyStrip r2.2.2.1] else [])

/-! Concrete fixtures used by counterexamples and witnesses. -/

/-- A client whose transport is present and active. -/
def activeClient : SSHClient := ⟨some true⟩

/-- Connection info for a live session with no cached device id. -/
def baseConn : SSHConnection := ⟨"192.168.1.50", "admin", 22, true, some 0, none⟩

/-- A connected manager carrying command log `log` and no cached device id. -/
def mgrC (log : List LogEntry) : SSHManager := ⟨some activeClient, some baseConn, log⟩

/-- A connected manager whose connection info caches device id `"id7"`. -/
def mgrCached : SSHManager :=
  ⟨some activeClient, some { baseConn with qm2_enc_sys_id := some "id7" }, []⟩

/-- Environment: transport connect succeeds and every command exits 0. -/
def envOk : Env := ⟨fun _ => .ok ⟨0, "out", ""⟩, .ok, 5⟩

/-- Environment: every remote execution raises a transport-level fault. -/
def envExn : Env := ⟨fun _ => .exn "channel closed", .ok, 7⟩

/-- Environment: the enumeration command lists one QM2 line; all other
commands fail with a nonzero exit. -/
def envEnum : Env :=
  ⟨fun c => if c == get_enum_command
            then .ok ⟨0, "x QM2 qm2_1_11.32 y", ""⟩
            else .ok ⟨1, "", "e"⟩,
   .ok, 3⟩

/-- Environment: the enumeration output's only line carries the QM2 marker
but fewer than 3 whitespace-separated fields. -/
def envEnumShort : Env := ⟨fun _ => .ok ⟨0, "QM2 x", ""⟩, .ok, 3⟩

/-- Environment: every command fails with exit 1 and stderr `"modeerr"`. -/
def envModeFail : Env := ⟨fun _ => .ok ⟨1, "", "modeerr"⟩, .ok, 4⟩

/-- Environment: the set-mode command for `"id7"` succeeds; every other
command fails with stderr `"pwmerr"`. -/
def envPwmFail : Env :=
  ⟨fun c => if c == set_fan_mode_command "id7" 1
            then .ok ⟨0, "", ""⟩
            else .ok ⟨1, "", "pwmerr"⟩,
   .ok, 4⟩

/-- Environment: the get-fan-status command answers `"spinning"`, every
other command answers `"128"`. -/
def envStat : Env :=
  ⟨fun c => if c == get_fan_status_command "id7"
            then .ok ⟨0, "spinning", ""⟩
            else .ok ⟨0, "128", ""⟩,
   .ok, 4⟩

/-- A log of 100 identical entries, filling the Command Log to capacity. -/
def fullLog : List LogEntry := List.replicate 100 ⟨0, "c", "", true, none⟩

/-! Helper lemmas shared by the claim theorems. -/

/-- A connected manager has both a client and connection info. -/
theorem connected_shape (m : SSHManager) (h : is_connected m = true) :
    ∃ c ci, m.client = some c ∧ m.connection_info = some ci := by
  obtain ⟨cl, ci, log⟩ := m
  cases cl with
  | none => simp [is_connected] at h
  | some c =>
    cases ci with
    | none => simp [is_connected] at h
    | some i => exact ⟨c, i, rfl, rfl⟩

/-- Closed form of `execute_command` on a disconnected manager. -/
theorem execute_command_not_connected (m : SSHManager) (env : Env) (cmd : String)
    (h : is_connected m = false) :
    execute_command m env cmd = (m, false, "", "Not connected to NAS") := by
  simp [execute_command, h]

/-- Closed form of `execute_command` when connected and the remote
execution returns normally. -/
theorem execute_command_of_ok (m : SSHManager) (env : Env) (cmd : String) (r : ExecResult)
    (hc : is_connected m = true) (he : env.exec cmd = .ok r) :
    execute_command m env cmd =
      ({ m with command_log := trim100 (m.command_log ++ [ok_log_entry env.now cmd r]) },
       r.exit_status == 0, pyStrip r.stdout, pyStrip r.stderr) := by
  obtain ⟨c, ci, hcl, hci⟩ := connected_shape m hc
  simp [execute_command, hc, hcl, he]

/-- Closed form of `execute_command` when connected and the remote
execution raises a transport-level fault. -/
theorem execute_command_of_exn (m : SSHManager) (env : Env) (cmd e : String)
    (hc : is_connected m = true) (he : env.exec cmd = .exn e) :
    execute_command m env cmd =
      ({ m with command_log := m.command_log ++ [exn_log_entry env.now cmd e] },
       false, "", "Command execution failed: " ++ e) := by
  obtain ⟨c, ci, hcl, hci⟩ := connected_shape m hc
  simp [execute_command, hc, hcl, he]

/-- Executing a command never changes the client. -/
theorem execute_command_client (m : SSHManager) (env : Env) (cmd : String) :
    (execute_command m env cmd).1.client = m.client := by
  unfold execute_command
  split
  · rfl
  · split
    · rfl
    · split <;> rfl

/-- Executing a command never changes the connection info. -/
theorem execute_command_conn_info (m : SSHManager) (env : Env) (cmd : String) :
    (execute_command m env cmd).1.connection_info = m.connection_info := by
  unfold execute_command
  split
  · rfl
  · split
    · rfl
    · split <;> rfl

/-- Executing a command preserves connectedness. -/
theorem is_connected_execute (m : SSHManager) (env : Env) (cmd : String) :
    is_connected (execute_command m env cmd).1 = is_connected m := by
  unfold is_connected
  rw [execute_command_client, execute_command_conn_info]

/-- The trim step is the identity on logs within capacity. -/
theorem trim100_of_le (l : List LogEntry) (h : l.length ≤ 100) : trim100 l = l := by
  unfold trim100
  rw [if_neg (by omega)]

/-- The trim step only evicts from the front: its output is a suffix. -/
theorem trim100_suffix (l : List LogEntry) : List.IsSuffix (trim100 l) l := by
  unfold trim100
  split
  · exact List.drop_suffix _ _
  · exact List.suffix_refl l

/-- Trimming after an append keeps the appended entry last. -/
theorem trim100_concat_getLast (l : List LogEntry) (a : LogEntry) :
    (trim100 (l ++ [a])).getLast? = some a := by
  unfold trim100
  split
  · next h =>
    rw [List.drop_append_of_le_length
      (by simp only [List.length_append, List.length_cons, List.length_nil] at h ⊢; omega)]
    exact List.getLast?_concat _
  · exact List.getLast?_concat _

/-- Length of the log after append-then-trim. -/
theorem trim100_concat_length (l : List LogEntry) (a : LogEntry) :
    (trim100 (l ++ [a])).length = min (l.length + 1) 100 := by
  unfold trim100
  split
  · next h => simp at h ⊢; omega
  · next h => simp at h ⊢; omega

/-- On a connected manager whose log is within 99 entries, one execution
appends exactly its `logged_entry` (no eviction). -/
theorem execute_command_log_small (m : SSHManager) (env : Env) (cmd : String)
    (hc : is_connected m = true) (hlen : m.command_log.length ≤ 99) :
    (execute_command m env cmd).1.command_log = m.command_log ++ [logged_entry env cmd] := by
  cases he : env.exec cmd with
  | ok r =>
    rw [execute_command_of_ok m env cmd r hc he]
    simp only [logged_entry, he]
    have hle : (m.command_log ++ [ok_log_entry env.now cmd r]).length ≤ 100 := by
      simp only [List.length_append, List.length_cons, List.length_nil]
      omega
    exact trim100_of_le _ hle
  | exn e =>
    rw [execute_command_of_exn m env cmd e hc he]
    simp [logged_entry, he]

/-- The command recorded by `logged_entry` is the executed command. -/
theorem logged_entry_command (env : Env) (cmd : String) :
    (logged_entry env cmd).command = cmd := by
  unfold logged_entry
  split <;> rfl

/-- Resolution with an explicitly provided non-empty id is immediate. -/
theorem resolve_enc_provided (m : SSHManager) (env : Env) (e : String)
    (he : ¬ e = "") :
    resolve_enc m env (some e) = .ok (m, e) := by
  have ht : strOptTruthy (some e) = true := by simp [strOptTruthy, he]
  simp [resolve_enc, ht]

/-- When the id is already resolved (provided or cached), resolution
succeeds without touching the manager state. -/
theorem resolve_enc_of_resolved (m : SSHManager) (env : Env) (enc0 : Option String)
    (h : encResolved m enc0 = true) :
    ∃ d, resolve_enc m env enc0 = .ok (m, d) := by
  unfold encResolved at h
  cases h1 : strOptTruthy enc0 with
  | true =>
    refine ⟨enc0.getD "", ?_⟩
    simp [resolve_enc, h1]
  | false =>
    rw [h1] at h
    simp only [Bool.false_or] at h
    cases hci : m.connection_info with
    | none => rw [hci] at h; simp at h
    | some ci =>
      rw [hci] at h
      have h' : strOptTruthy ci.qm2_enc_sys_id = true := by simpa using h
      refine ⟨ci.qm2_enc_sys_id.getD "", ?_⟩
      simp [resolve_enc, h1, hci, h']

/-! Claim theorems. -/

/-- C9: for every session state, `disconnect()` followed by `isConnected()`
yields false, including when no connection was ever established;
`disconnect` is a safe no-op on an already-disconnected session, and the
resulting state does not depend on whether closing the channel raised an
error (close errors are swallowed, not propagated). -/
theorem C9_disconnect_then_not_connected (m : SSHManager) (e e' : Option String) :
    is_connected (disconnect m e) = false ∧
    disconnect (disconnect m e) e' = disconnect m e ∧
    disconnect m e = disconnect m e' :=
  ⟨rfl, rfl, rfl⟩

/-- C7: `executeCommand` on a disconnected session returns failure with the
"not connected" message and leaves the whole state (in particular the
Command Log) unchanged — whereas on a connected session a command that
fails on the wire (transport fault) does append a `LogEntry`. -/
theorem C7_not_connected_fails_without_logging :
    (∀ (m : SSHManager) (env : Env) (cmd : String), is_connected m = false →
      execute_command m env cmd = (m, false, "", "Not connected to NAS")) ∧
    (∀ (m : SSHManager) (env : Env) (cmd e : String), is_connected m = true →
      env.exec cmd = .exn e →
      (execute_command m env cmd).1.command_log =
        m.command_log ++ [exn_log_entry env.now cmd e]) := by
  constructor
  · exact fun m env cmd h => execute_command_not_connected m env cmd h
  · intro m env cmd e hc he
    rw [execute_command_of_exn m env cmd e hc he]

/-- Witness for C7: a fresh manager is disconnected and executing on it
changes nothing; a connected manager suffering a transport fault logs one
entry. -/
theorem C7_witness :
    execute_command SSHManager.init envOk "ls" =
      (SSHManager.init, false, "", "Not connected to NAS") ∧
    (execute_command (mgrC []) envExn "ls").1.command_log =
      (mgrC []).command_log ++ [exn_log_entry envExn.now "ls" "channel closed"] :=
  ⟨C7_not_connected_fails_without_logging.1 SSHManager.init envOk "ls" rfl,
   C7_not_connected_fails_without_logging.2 (mgrC []) envExn "ls" "channel closed" rfl rfl⟩

/-- C2 (code bug): the Command Log is claimed never to exceed 100 entries
for every `executeCommand` sequence including transport-fault calls, but
the transport-fault path appends without trimming: executing one
fault-raising command on a connected manager whose log already holds 100
entries leaves 101 entries. -/
theorem C2_cap_violated_on_transport_fault :
    fullLog.length = 100 ∧
    is_connected (mgrC fullLog) = true ∧
    (execute_command (mgrC fullLog) envExn "ls").1.command_log.length = 101 :=
  ⟨by simp [fullLog], rfl, by rfl⟩

/-- C1 (code bug): `connect` can never succeed — the verification command
runs before `connection_info` is recorded, so `execute_command`'s
connectedness guard always fails the verification; for every prior state,
environment and arguments (even when the transport connects and the
verification command would exit 0), `connect` reports failure and records
no `SSHConnection`. -/
theorem C1_connect_never_succeeds (m : SSHManager) (env : Env)
    (host username : String) (port : Nat) :
    (connect m env host username port).2.1 = false ∧
    (connect m env host username port).1.connection_info = none := by
  unfold connect
  cases env.connect_result <;>
    simp [disconnect, execute_command, is_connected]

/-- C6: on a connected session, `executeCommand` succeeds iff the remote
exit status is 0; exactly one `LogEntry` is appended (the log is extended
by the entry and only ever shortened from the front by the capacity trim),
whose response holds stripped stdout on success and stripped stderr on
failure and whose `error_message` is set only on failure; a transport-level
fault is caught, logged as a failed entry carrying the exception text, and
returned as a failure instead of propagating. -/
theorem C6_execute_command_contract :
    (∀ (m : SSHManager) (env : Env) (cmd : String) (r : ExecResult),
      is_connected m = true → env.exec cmd = .ok r →
      (execute_command m env cmd).2.1 = (r.exit_status == 0) ∧
      (execute_command m env cmd).2.2.1 = pyStrip r.stdout ∧
      (execute_command m env cmd).2.2.2 = pyStrip r.stderr ∧
      (execute_command m env cmd).1.command_log.getLast? = some
        { timestamp := env.now
          command := cmd
          response := if r.exit_status == 0 then pyStrip r.stdout else pyStrip r.stderr
          success := r.exit_status == 0
          error_message := if r.exit_status == 0 then none else some (pyStrip r.stderr) } ∧
      List.IsSuffix (execute_command m env cmd).1.command_log
        (m.command_log ++ [ok_log_entry env.now cmd r]) ∧
      (execute_command m env cmd).1.command_log.length =
        min (m.command_log.length + 1) 100) ∧
    (∀ (m : SSHManager) (env : Env) (cmd e : String),
      is_connected m = true → env.exec cmd = .exn e →
      execute_command m env cmd =
        ({ m with command_log := m.command_log ++
            [{ timestamp := env.now
               command := cmd
               response := ""
               success := false
               error_message := some ("Command execution failed: " ++ e) }] },
         false, "", "Command execution failed: " ++ e)) := by
  constructor
  · intro m env cmd r hc he
    rw [execute_command_of_ok m env cmd r hc he]
    exact ⟨rfl, rfl, rfl, trim100_concat_getLast _ _, trim100_suffix _,
      trim100_concat_length _ _⟩
  · intro m env cmd e hc he
    exact execute_command_of_exn m env cmd e hc he

/-- Witness for C6: a successful execution on a connected manager, and a
transport fault on a connected manager. -/
theorem C6_witness :
    (execute_command (mgrC []) envOk "ls").2.1 = true ∧
    (execute_command (mgrC []) envOk "ls").1.command_log.getLast? =
      some { timestamp := 5, command := "ls", response := "out",
             success := true, error_message := none } ∧
    (execute_command (mgrC []) envExn "ls").2.2.2 =
      "Command execution failed: channel closed" := by
  have hok := C6_execute_command_contract.1 (mgrC []) envOk "ls" ⟨0, "out", ""⟩ rfl rfl
  have hexn := C6_execute_command_contract.2 (mgrC []) envExn "ls" "channel closed" rfl rfl
  refine ⟨?_, ?_, ?_⟩
  · rw [hok.1]; rfl
  · rw [hok.2.2.2.1]; rfl
  · rw [hexn]; rfl

/-- C3 counterexample: on a connected session with no cached device id, an
unrecognized value key does return the "invalid fan speed value" failure,
but only after issuing (and logging) the enumerate-devices remote command —
refuting "issues zero remote commands (no command is executed and no
LogEntry is appended)". -/
theorem C3_counterexample :
    is_connected (mgrC []) = true ∧
    findOption "warp" = none ∧
    (set_fan_speed (mgrC []) envEnum "warp" none).2 =
      (false, "Invalid fan speed value: warp") ∧
    (set_fan_speed (mgrC []) envEnum "warp" none).1.command_log.map LogEntry.command =
      [get_enum_command] :=
  ⟨rfl, rfl, rfl, rfl⟩

/-- C3 (amended): on a connected session whose device identifier is already
resolved (passed in truthy, or cached truthy on the connection info), a
value key matching no catalog option makes `set_fan_speed` fail with the
"invalid fan speed value" message, leaving the state unchanged — zero
remote commands issued and no `LogEntry` appended.  (When the identifier is
unresolved, auto-detection issues the enumerate command first.) -/
theorem C3_invalid_speed_no_command (m : SSHManager) (env : Env) (v : String)
    (enc_sys_id0 : Option String) (hc : is_connected m = true)
    (hres : encResolved m enc_sys_id0 = true) (hv : findOption v = none) :
    set_fan_speed m env v enc_sys_id0 = (m, false, "Invalid fan speed value: " ++ v) := by
  obtain ⟨d, hd⟩ := resolve_enc_of_resolved m env enc_sys_id0 hres
  simp [set_fan_speed, hc, hd, hv]

/-- Witness for C3 (amended): a cached id and the unknown key `"warp"`. -/
theorem C3_witness :
    encResolved mgrCached none = true ∧
    findOption "warp" = none ∧
    set_fan_speed mgrCached envOk "warp" none =
      (mgrCached, false, "Invalid fan speed value: warp") :=
  ⟨rfl, rfl, C3_invalid_speed_no_command mgrCached envOk "warp" none rfl rfl rfl⟩

/-- The detector's scanning loop agrees with its declarative reading: the
3rd field of the first line that matches the marker test and has at least
3 whitespace-separated fields. -/
theorem findQM2_eq_firstQM2Field (lines : List String) :
    findQM2 lines = firstQM2Field lines := by
  induction lines with
  | nil => rfl
  | cons l rest ih =>
    cases hm : qm2LineMatch l with
    | false =>
      have h1 : findQM2 (l :: rest) = findQM2 rest := by
        conv_lhs => rw [findQM2.eq_def]
        simp [hm]
      have h2 : firstQM2Field (l :: rest) = firstQM2Field rest := by
        unfold firstQM2Field
        rw [List.find?_cons_of_neg _ (by simp [hm])]
      rw [h1, h2, ih]
    | true =>
      cases h3 : (splitWs l)[2]? with
      | some p =>
        have hlt : 2 < (splitWs l).length := by
          obtain ⟨hlt, _⟩ := List.getElem?_eq_some.1 h3
          exact hlt
        have h1 : findQM2 (l :: rest) = some p := by
          conv_lhs => rw [findQM2.eq_def]
          simp [hm, h3]
        have h2 : firstQM2Field (l :: rest) = some p := by
          unfold firstQM2Field
          rw [List.find?_cons_of_pos _ (by simp [hm]; omega)]
          simpa using h3
        rw [h1, h2]
      | none =>
        have hle : (splitWs l).length ≤ 2 := List.getElem?_eq_none_iff.1 h3
        have h1 : findQM2 (l :: rest) = findQM2 rest := by
          conv_lhs => rw [findQM2.eq_def]
          simp [hm, h3]
        have h2 : firstQM2Field (l :: rest) = firstQM2Field rest := by
          unfold firstQM2Field
          rw [List.find?_cons_of_neg _ (by simp [hm]; omega)]
        rw [h1, h2, ih]

/-- C5 counterexample: an enumerate-devices output whose only line contains
the device-family marker both case-insensitively and in exact case, yet
auto-detection fails (the line has fewer than 3 whitespace-separated
fields, so the scanning loop skips it) — refuting "succeeds exactly when
some line contains the marker both case-insensitively and in exact
case". -/
theorem C5_counterexample :
    is_connected (mgrC []) = true ∧
    envEnumShort.exec get_enum_command = ExecOutcome.ok ⟨0, "QM2 x", ""⟩ ∧
    pyLines (pyStrip "QM2 x") = ["QM2 x"] ∧
    qm2LineMatch "QM2 x" = true ∧
    (detect_qm2_card (mgrC []) envEnumShort).2 = (false, no_qm2_message) :=
  ⟨rfl, rfl, rfl, rfl, rfl⟩

/-- C5 (amended): on a connected session whose enumeration command returns
normally with exit status 0, auto-detection succeeds exactly when some
output line both matches the double marker test and has at least 3
whitespace-separated fields; on success it returns the 3rd field of the
first such line, and when no such line exists it returns the distinct
"no device found" failure and leaves the connection info (hence any cached
identifier) unchanged. -/
theorem C5_detect_matching_rule (m : SSHManager) (env : Env) (r : ExecResult)
    (hc : is_connected m = true) (he : env.exec get_enum_command = .ok r)
    (hz : r.exit_status = 0) :
    ((detect_qm2_card m env).2.1 =
      (firstQM2Field (pyLines (pyStrip r.stdout))).isSome) ∧
    (∀ enc_sys_id, firstQM2Field (pyLines (pyStrip r.stdout)) = some enc_sys_id →
      (detect_qm2_card m env).2.2 = enc_sys_id) ∧
    (firstQM2Field (pyLines (pyStrip r.stdout)) = none →
      (detect_qm2_card m env).2.2 = no_qm2_message ∧
      (detect_qm2_card m env).1.connection_info = m.connection_info) := by
  have hex := execute_command_of_ok m env get_enum_command r hc he
  have hz' : (r.exit_status == 0) = true := by simp [hz]
  unfold detect_qm2_card
  rw [hex, hc]
  simp only [hz', Bool.true_eq_false, if_false, findQM2_eq_firstQM2Field]
  cases hf : firstQM2Field (pyLines (pyStrip r.stdout)) with
  | some enc_sys_id => simp
  | none => simp

/-- Witness for C5 (amended): output with one well-formed QM2 line. -/
theorem C5_witness :
    envEnum.exec get_enum_command = ExecOutcome.ok ⟨0, "x QM2 qm2_1_11.32 y", ""⟩ ∧
    firstQM2Field (pyLines (pyStrip "x QM2 qm2_1_11.32 y")) = some "qm2_1_11.32" ∧
    (detect_qm2_card (mgrC []) envEnum).2.2 = "qm2_1_11.32" :=
  ⟨rfl, rfl,
   (C5_detect_matching_rule (mgrC []) envEnum ⟨0, "x QM2 qm2_1_11.32 y", ""⟩
     rfl rfl rfl).2.1 "qm2_1_11.32" rfl⟩

/-- C10: on every successful detection, `detect_qm2_card` itself writes the
detected identifier into the current connection info's
`qm2_enc_sys_id` field (when connection info exists) and mutates no other
field of it (host, username, port, connected flag, timestamp unchanged);
when no connection info exists it stays absent. -/
theorem C10_detect_caches_identifier (m : SSHManager) (env : Env)
    (hc : is_connected m = true) (hs : (detect_qm2_card m env).2.1 = true) :
    (detect_qm2_card m env).1.connection_info =
      (match m.connection_info with
       | some ci => some { ci with qm2_enc_sys_id := some ((detect_qm2_card m env).2.2) }
       | none => none) := by
  rcases hex : execute_command m env get_enum_command with ⟨m1, s, out, err⟩
  have hm1 : m1.connection_info = m.connection_info := by
    have h := execute_command_conn_info m env get_enum_command
    rw [hex] at h
    exact h
  unfold detect_qm2_card at hs ⊢
  rw [hc] at hs ⊢
  rw [hex] at hs ⊢
  cases s with
  | false => simp at hs
  | true =>
    simp only [Bool.true_eq_false, if_false] at hs ⊢
    cases hfind : findQM2 (pyLines out) with
    | none =>
      rw [hfind] at hs
      exact Bool.noConfusion hs
    | some enc_sys_id =>
      cases hci : m.connection_info with
      | none => simp [hm1, hci]
      | some ci => simp [hm1, hci]

/-- Witness for C10: successful detection caches the id on the connection
info and changes none of its other fields. -/
theorem C10_witness :
    (detect_qm2_card (mgrC []) envEnum).2.1 = true ∧
    (detect_qm2_card (mgrC []) envEnum).1.connection_info =
      some { baseConn with qm2_enc_sys_id := some "qm2_1_11.32" } := by
  have h := C10_detect_caches_identifier (mgrC []) envEnum rfl rfl
  exact ⟨rfl, by rw [h]; rfl⟩

/-- Dispatch of `set_fan_speed` for a restore-default option: the effect is
exactly one execution of the restore-default command. -/
theorem set_fan_speed_restore (m : SSHManager) (env : Env) (e v : String)
    (opt : FanSpeedOption) (hc : is_connected m = true) (he : ¬ e = "")
    (hv : findOption v = some opt) (hcmd : opt.command = "restore_default") :
    (set_fan_speed m env v (some e)).1 =
      (execute_command m env (restore_default_fan_command e)).1 ∧
    (m.command_log.length ≤ 99 →
      (set_fan_speed m env v (some e)).1.command_log.map LogEntry.command =
        m.command_log.map LogEntry.command ++ [restore_default_fan_command e]) := by
  have hres := resolve_enc_provided m env e he
  have hb : (opt.command == "restore_default") = true := by simp [hcmd]
  have hstate : (set_fan_speed m env v (some e)).1 =
      (execute_command m env (restore_default_fan_command e)).1 := by
    rcases hex : execute_command m env (restore_default_fan_command e) with ⟨m3, s, o, er⟩
    simp [set_fan_speed, hc, hres, hv, hb, hex]
    cases s <;> simp
  refine ⟨hstate, fun hlen => ?_⟩
  rw [hstate, execute_command_log_small m env _ hc hlen]
  simp [logged_entry_command]

/-- Dispatch of `set_fan_speed` for a PWM option whose set-mode command
fails: the mode command's stderr is reported and the PWM write is not
attempted. -/
theorem set_fan_speed_mode_fail (m : SSHManager) (env : Env) (e v : String)
    (opt : FanSpeedOption) (hc : is_connected m = true) (he : ¬ e = "")
    (hv : findOption v = some opt) (hcmd : ¬ opt.command = "restore_default")
    (hmode : (execute_command m env (set_fan_mode_command e 1)).2.1 = false) :
    set_fan_speed m env v (some e) =
      ((execute_command m env (set_fan_mode_command e 1)).1, false,
       "Failed to set fan mode: " ++
         (execute_command m env (set_fan_mode_command e 1)).2.2.2) ∧
    (m.command_log.length ≤ 99 →
      (set_fan_speed m env v (some e)).1.command_log.map LogEntry.command =
        m.command_log.map LogEntry.command ++ [set_fan_mode_command e 1]) := by
  have hres := resolve_enc_provided m env e he
  have hb : (opt.command == "restore_default") = false := by simp [hcmd]
  have hmain : set_fan_speed m env v (some e) =
      ((execute_command m env (set_fan_mode_command e 1)).1, false,
       "Failed to set fan mode: " ++
         (execute_command m env (set_fan_mode_command e 1)).2.2.2) := by
    rcases hex : execute_command m env (set_fan_mode_command e 1) with ⟨m2, s, o, er⟩
    rw [hex] at hmode
    cases s with
    | true => simp at hmode
    | false => simp [set_fan_speed, hc, hres, hv, hb, hex]
  refine ⟨hmain, fun hlen => ?_⟩
  rw [hmain]
  show (execute_command m env (set_fan_mode_command e 1)).1.command_log.map LogEntry.command = _
  rw [execute_command_log_small m env _ hc hlen]
  simp [logged_entry_command]

/-- Dispatch of `set_fan_speed` for a PWM option whose set-mode command
succeeds but whose set-PWM command fails: exactly the two commands are
attempted and the PWM command's stderr backs the failure message. -/
theorem set_fan_speed_pwm_fail (m : SSHManager) (env : Env) (e v : String)
    (opt : FanSpeedOption) (hc : is_connected m = true) (he : ¬ e = "")
    (hv : findOption v = some opt) (hcmd : ¬ opt.command = "restore_default")
    (hmode : (execute_command m env (set_fan_mode_command e 1)).2.1 = true)
    (hpwm : (execute_command (execute_command m env (set_fan_mode_command e 1)).1 env
      (set_fan_pwm_command e ((pyInt opt.command).getD 0))).2.1 = false) :
    set_fan_speed m env v (some e) =
      ((execute_command (execute_command m env (set_fan_mode_command e 1)).1 env
         (set_fan_pwm_command e ((pyInt opt.command).getD 0))).1, false,
       "Failed to set fan speed: " ++
         (if (execute_command (execute_command m env (set_fan_mode_command e 1)).1 env
               (set_fan_pwm_command e ((pyInt opt.command).getD 0))).2.2.2 == ""
          then "Unknown error"
          else (execute_command (execute_command m env (set_fan_mode_command e 1)).1 env
                 (set_fan_pwm_command e ((pyInt opt.command).getD 0))).2.2.2)) ∧
    (m.command_log.length ≤ 98 →
      (set_fan_speed m env v (some e)).1.command_log.map LogEntry.command =
        m.command_log.map LogEntry.command ++
          [set_fan_mode_command e 1,
           set_fan_pwm_command e ((pyInt opt.command).getD 0)]) := by
  have hres := resolve_enc_provided m env e he
  have hb : (opt.command == "restore_default") = false := by simp [hcmd]
  rcases hex1 : execute_command m env (set_fan_mode_command e 1) with ⟨m2, s1, o1, er1⟩
  rw [hex1] at hmode hpwm
  rcases hex2 : execute_command m2 env
    (set_fan_pwm_command e ((pyInt opt.command).getD 0)) with ⟨m3, s2, o2, er2⟩
  rw [hex2] at hpwm
  have hs1 : s1 = true := hmode
  have hs2 : s2 = false := hpwm
  subst hs1 hs2
  have hmain : set_fan_speed m env v (some e) =
      (m3, false, "Failed to set fan speed: " ++
        (if er2 == "" then "Unknown error" else er2)) := by
    simp [set_fan_speed, hc, hres, hv, hb, hex1, hex2]
  refine ⟨by rw [hmain], fun hlen => ?_⟩
  have hc2 : is_connected m2 = true := by
    have h := is_connected_execute m env (set_fan_mode_command e 1)
    rw [hex1] at h
    rw [h, hc]
  have hlog2 : m2.command_log =
      m.command_log ++ [logged_entry env (set_fan_mode_command e 1)] := by
    have h := execute_command_log_small m env (set_fan_mode_command e 1) hc (by omega)
    rw [hex1] at h
    exact h
  have hlen2 : m2.command_log.length ≤ 99 := by
    rw [hlog2]
    simp only [List.length_append, List.length_cons, List.length_nil]
    omega
  have hlog3 : m3.command_log = m2.command_log ++
      [logged_entry env (set_fan_pwm_command e ((pyInt opt.command).getD 0))] := by
    have h := execute_command_log_small m2 env
      (set_fan_pwm_command e ((pyInt opt.command).getD 0)) hc2 hlen2
    rw [hex2] at h
    exact h
  rw [hmain]
  show m3.command_log.map LogEntry.command = _
  rw [hlog3, hlog2]
  simp [logged_entry_command]

/-- C4: on a connected session with a resolved device identifier, if the
requested option is the restore-default sentinel, `set_fan_speed` issues
exactly one remote command (the restore-default command, no mode-then-PWM
sequence); otherwise it issues the set-mode command first, aborting with
that command's stderr (no PWM write attempted) when it fails, and when the
mode command succeeds but the set-PWM command fails, exactly two commands
were attempted and the failure message carries the PWM command's stderr. -/
theorem C4_dispatch_sequencing :
    (∀ (m : SSHManager) (env : Env) (e v : String) (opt : FanSpeedOption),
      is_connected m = true → ¬ e = "" → findOption v = some opt →
      opt.command = "restore_default" →
      (set_fan_speed m env v (some e)).1 =
        (execute_command m env (restore_default_fan_command e)).1 ∧
      (m.command_log.length ≤ 99 →
        (set_fan_speed m env v (some e)).1.command_log.map LogEntry.command =
          m.command_log.map LogEntry.command ++ [restore_default_fan_command e])) ∧
    (∀ (m : SSHManager) (env : Env) (e v : String) (opt : FanSpeedOption),
      is_connected m = true → ¬ e = "" → findOption v = some opt →
      ¬ opt.command = "restore_default" →
      (execute_command m env (set_fan_mode_command e 1)).2.1 = false →
      set_fan_speed m env v (some e) =
        ((execute_command m env (set_fan_mode_command e 1)).1, false,
         "Failed to set fan mode: " ++
           (execute_command m env (set_fan_mode_command e 1)).2.2.2) ∧
      (m.command_log.length ≤ 99 →
        (set_fan_speed m env v (some e)).1.command_log.map LogEntry.command =
          m.command_log.map LogEntry.command ++ [set_fan_mode_command e 1])) ∧
    (∀ (m : SSHManager) (env : Env) (e v : String) (opt : FanSpeedOption),
      is_connected m = true → ¬ e = "" → findOption v = some opt →
      ¬ opt.command = "restore_default" →
      (execute_command m env (set_fan_mode_command e 1)).2.1 = true →
      (execute_command (execute_command m env (set_fan_mode_command e 1)).1 env
        (set_fan_pwm_command e ((pyInt opt.command).getD 0))).2.1 = false →
      set_fan_speed m env v (some e) =
        ((execute_command (execute_command m env (set_fan_mode_command e 1)).1 env
           (set_fan_pwm_command e ((pyInt opt.command).getD 0))).1, false,
         "Failed to set fan speed: " ++
           (if (execute_command (execute_command m env (set_fan_mode_command e 1)).1 env
                 (set_fan_pwm_command e ((pyInt opt.command).getD 0))).2.2.2 == ""
            then "Unknown error"
            else (execute_command (execute_command m env (set_fan_mode_command e 1)).1 env
                   (set_fan_pwm_command e ((pyInt opt.command).getD 0))).2.2.2)) ∧
      (m.command_log.length ≤ 98 →
        (set_fan_speed m env v (some e)).1.command_log.map LogEntry.command =
          m.command_log.map LogEntry.command ++
            [set_fan_mode_command e 1,
             set_fan_pwm_command e ((pyInt opt.command).getD 0)])) :=
  ⟨fun m env e v opt hc he hv hcmd =>
    set_fan_speed_restore m env e v opt hc he hv hcmd,
   fun m env e v opt hc he hv hcmd hmode =>
    set_fan_speed_mode_fail m env e v opt hc he hv hcmd hmode,
   fun m env e v opt hc he hv hcmd hmode hpwm =>
    set_fan_speed_pwm_fail m env e v opt hc he hv hcmd hmode hpwm⟩

/-- Witness for C4: a restore-default call issuing exactly one command, and
a mode-success/PWM-failure call issuing exactly two and reporting the PWM
stderr. -/
theorem C4_witness :
    (set_fan_speed (mgrC []) envOk "auto" (some "id7")).1.command_log.map LogEntry.command =
      [restore_default_fan_command "id7"] ∧
    (set_fan_speed (mgrC []) envPwmFail "high" (some "id7")).2 =
      (false, "Failed to set fan speed: pwmerr") ∧
    (set_fan_speed (mgrC []) envPwmFail "high" (some "id7")).1.command_log.map LogEntry.command =
      [set_fan_mode_command "id7" 1, set_fan_pwm_command "id7" 150] := by
  have h1 := (C4_dispatch_sequencing.1 (mgrC []) envOk "id7" "auto"
    ⟨"Auto/Default", "auto", "restore_default"⟩ rfl (by decide) rfl rfl).2 (by decide)
  have h3 := C4_dispatch_sequencing.2.2 (mgrC []) envPwmFail "id7" "high"
    ⟨"High (PWM 150)", "high", "150"⟩ rfl (by decide) rfl (by decide) rfl rfl
  refine ⟨?_, ?_, ?_⟩
  · rw [h1]; rfl
  · rw [h3.1]; rfl
  · rw [h3.2 (by decide)]; rfl

/-- C8: on a connected session with a provided device identifier,
`get_fan_status` issues the get-fan-status command and then the get-fan-pwm
command (its final state is exactly the state after those two executions in
that order), succeeds iff at least one of the two produced usable (non-empty)
output, returns the pipe-joined concatenation of the usable labelled
fragments, and fails with the fallback message exactly when neither yielded
usable output. -/
theorem C8_fan_status_concatenation (m : SSHManager) (env : Env) (e : String)
    (hc : is_connected m = true) (he : ¬ e = "") :
    ((get_fan_status m env (some e)).2.1 = true ↔ status_pieces m env e ≠ []) ∧
    (get_fan_status m env (some e)).1 =
      (execute_command (execute_command m env (get_fan_status_command e)).1 env
        (get_fan_pwm_command e)).1 ∧
    (status_pieces m env e ≠ [] →
      (get_fan_status m env (some e)).2.2 = pyJoin " | " (status_pieces m env e)) ∧
    (status_pieces m env e = [] →
      (get_fan_status m env (some e)).2.2 = "Could not retrieve fan status") := by
  have hres := resolve_enc_provided m env e he
  rcases hex1 : execute_command m env (get_fan_status_command e) with ⟨m2, s1, o1, er1⟩
  rcases hex2 : execute_command m2 env (get_fan_pwm_command e) with ⟨m3, s2, o2, er2⟩
  have hp : status_pieces m env e =
      (if s1 && !(o1 == "") then ["Fan Status: " ++ pyStrip o1] else []) ++
        (if s2 && !(o2 == "") then ["PWM: " ++ pyStrip o2] else []) := by
    unfold status_pieces
    rw [hex1]
    dsimp only
    rw [hex2]
  have hmain : get_fan_status m env (some e) =
      (m3,
       if (status_pieces m env e).isEmpty = false
       then (true, pyJoin " | " (status_pieces m env e))
       else (false, "Could not retrieve fan status")) := by
    unfold get_fan_status
    rw [hc, hres]
    simp only [Bool.true_eq_false, if_false]
    rw [hex1]
    dsimp only
    rw [hex2]
    dsimp only
    rw [hp]
    cases hb1 : (s1 && !(o1 == "")) <;> cases hb2 : (s2 && !(o2 == "")) <;>
      simp [hb1, hb2]
  rw [hp] at hmain ⊢
  cases hb1 : (s1 && !(o1 == "")) <;> cases hb2 : (s2 && !(o2 == "")) <;>
    rw [hb1, hb2] at hmain <;> simp [hmain]

/-- Witness for C8: both commands usable, pipe-joined result. -/
theorem C8_witness :
    status_pieces (mgrC []) envStat "id7" = ["Fan Status: spinning", "PWM: 128"] ∧
    (get_fan_status (mgrC []) envStat (some "id7")).2.1 = true ∧
    (get_fan_status (mgrC []) envStat (some "id7")).2.2 =
      "Fan Status: spinning | PWM: 128" := by
  have h := C8_fan_status_concatenation (mgrC []) envStat "id7" rfl (by decide)
  refine ⟨rfl, ?_, ?_⟩
  · rw [h.1]; decide
  · rw [h.2.2.1 (by decide)]; rfl

end QNAP
